import Mathlib

/-!
Verification of the InfluxDB admin-command forwarder module
(salt/modules/influx.py) against its design specification.

The module is a thin adapter: it resolves connection parameters
(explicit argument > configuration option > built-in default),
constructs a client per call, and forwards a single administrative
operation, guarded by existence checks that make create/remove
operations idempotent.

The shallow embedding below models:
  * the configuration store (`Config`) and the resolution function
    `_client` exactly as in the source;
  * the external influxdb client library as an opaque collaborator
    acting on an abstract server state (`Server`) and recording every
    issued call in a trace (`World.calls`) so that frame properties
    ("no remote mutating call is issued") are statable;
  * each public module function (`db_list`, `db_exists`, `db_create`,
    `db_remove`, `user_list`, `user_exists`, `user_create`,
    `user_chpass`, `user_remove`, `query`) as a state transformer
    `World → result × World`, translated line by line from the source.

Python optional parameters (`=None` defaults) are modelled as `Option`
arguments; Python truthiness tests (`if not user:`, `if database:`) are
modelled by explicit emptiness tests on the option contents.
-/

/-- A resolved connection configuration: the four parameters the module
passes to the influxdb client constructor. -/
structure Conn where
  user : String
  password : String
  host : String
  port : Nat
deriving DecidableEq

/-- A record returned by a listing call; the module only ever reads its
name field (`db['name']`, `u['name']`). -/
structure Record where
  name : String
deriving DecidableEq

/-- The minion configuration store consulted through
`__salt__['config.option'](key, default)`: each influxdb key is either
set or absent. -/
structure Config where
  user : Option String
  password : Option String
  host : Option String
  port : Option Nat
deriving DecidableEq

/-- Python truthiness of an optional string argument: `None` and the
empty string are falsy. -/
def pyTruthyStr : Option String → Bool
  | none => false
  | some s => s ≠ ""

/-- Python truthiness of an optional integer argument: `None` and `0`
are falsy. -/
def pyTruthyNat : Option Nat → Bool
  | none => false
  | some n => n ≠ 0

/-- `_client` from the source: each connection parameter falls back to
the configuration option, which itself falls back to the built-in
default (`root` / `root` / `localhost` / `8086`).  The source tests
`if not user:` etc., so a supplied falsy value also falls back. -/
def _client (cfg : Config) (user password host : Option String)
    (port : Option Nat) : Conn :=
  { user := if pyTruthyStr user then user.getD "" else cfg.user.getD "root"
    password := if pyTruthyStr password then password.getD "" else cfg.password.getD "root"
    host := if pyTruthyStr host then host.getD "" else cfg.host.getD "localhost"
    port := if pyTruthyNat port then port.getD 0 else cfg.port.getD 8086 }

/-- One call issued to the influxdb client library, tagged with the
connection parameters of the client handle that issued it.  Listing
calls that act on the client current database also record that
database. -/
inductive Call where
  | getDatabaseList (c : Conn)
  | createDatabase (c : Conn) (name : String)
  | deleteDatabase (c : Conn) (name : String)
  | switchDb (c : Conn) (db : String)
  | getDatabaseUsers (c : Conn) (db : Option String)
  | getListClusterAdmins (c : Conn)
  | addDatabaseUser (c : Conn) (db : Option String) (name passwd : String)
  | addClusterAdmin (c : Conn) (name passwd : String)
  | updateDatabaseUserPassword (c : Conn) (db : Option String) (name passwd : String)
  | updateClusterAdminPassword (c : Conn) (name passwd : String)
  | deleteDatabaseUser (c : Conn) (db : Option String) (target : Option String)
  | deleteClusterAdmin (c : Conn) (target : Option String)
  | queryCall (c : Conn) (db : Option String) (q tp : String) (chunked : Bool)
deriving DecidableEq

/-- The connection parameters a call was issued with. -/
def Call.conn : Call → Conn
  | .getDatabaseList c => c
  | .createDatabase c _ => c
  | .deleteDatabase c _ => c
  | .switchDb c _ => c
  | .getDatabaseUsers c _ => c
  | .getListClusterAdmins c => c
  | .addDatabaseUser c _ _ _ => c
  | .addClusterAdmin c _ _ => c
  | .updateDatabaseUserPassword c _ _ _ => c
  | .updateClusterAdminPassword c _ _ => c
  | .deleteDatabaseUser c _ _ => c
  | .deleteClusterAdmin c _ => c
  | .queryCall c _ _ _ _ => c

/-- Remote mutating calls: everything that creates, deletes or updates
server-side state.  Listing calls, the client-side database switch and
queries are not mutating. -/
def Call.isMutating : Call → Bool
  | .createDatabase _ _ => true
  | .deleteDatabase _ _ => true
  | .addDatabaseUser _ _ _ _ => true
  | .addClusterAdmin _ _ _ => true
  | .updateDatabaseUserPassword _ _ _ _ => true
  | .updateClusterAdminPassword _ _ _ => true
  | .deleteDatabaseUser _ _ _ => true
  | .deleteClusterAdmin _ _ => true
  | _ => false

/-- Calls of the cluster-admin operation family. -/
def Call.clusterFamily : Call → Bool
  | .getListClusterAdmins _ => true
  | .addClusterAdmin _ _ _ => true
  | .updateClusterAdminPassword _ _ _ => true
  | .deleteClusterAdmin _ _ => true
  | _ => false

/-- Calls of the database-scoped user operation family, including the
database switch that precedes them. -/
def Call.dbFamily : Call → Bool
  | .switchDb _ _ => true
  | .getDatabaseUsers _ _ => true
  | .addDatabaseUser _ _ _ _ => true
  | .updateDatabaseUserPassword _ _ _ _ => true
  | .deleteDatabaseUser _ _ _ => true
  | _ => false

/-- The value a listing call returns: a proper Python list of records,
or any other value (an in-band error indicator), which the module
detects with `isinstance(_, list)`. -/
inductive ListingResult where
  | list (rs : List Record)
  | other
deriving DecidableEq

/-- Modelled from the spec: the remote server state the opaque client
library acts on — databases, cluster admins and per-database users,
plus an abstract query-answer function standing for raw query results.
The client library itself is out of scope of the source (an external
collaborator), so its natural semantics is taken from the spec
end-to-end scenarios. -/
structure Server where
  databases : List Record
  clusterAdmins : List Record
  dbUsers : List (String × List Record)
  queryRes : String → String → String → Bool → Nat

/-- The database-scoped users of one database. -/
def Server.usersOf (s : Server) (db : String) : List Record :=
  ((s.dbUsers.find? (fun e => e.1 = db)).map Prod.snd).getD []

/-- The world a module invocation runs in: the server state, a flag
saying whether listing calls currently return proper lists (false
models the in-band error indicator), the trace of client calls issued
so far, and a count of informational log messages emitted. -/
structure World where
  server : Server
  listingOk : Bool
  calls : List Call
  infoLogs : Nat

/-- A client handle: its resolved connection parameters and the
database selected by `switch_db`, if any. -/
structure Client where
  conn : Conn
  currentDb : Option String
deriving DecidableEq

/-- A freshly constructed client handle has no database selected. -/
def mkClient (c : Conn) : Client := { conn := c, currentDb := none }

/-- `log.info(...)`: record that one informational message was
emitted (message text is not modelled). -/
def logInfo (w : World) : World := { w with infoLogs := w.infoLogs + 1 }

/-- Modelled from the spec: `client.get_database_list()` — returns the
list of databases, or a non-list error indicator when listing is
failing. -/
def get_database_list (c : Client) (w : World) : ListingResult × World :=
  ((if w.listingOk then ListingResult.list w.server.databases else ListingResult.other),
   { w with calls := w.calls ++ [Call.getDatabaseList c.conn] })

/-- Modelled from the spec: `client.create_database(name)` — appends a
database record and reports success. -/
def create_database (c : Client) (name : String) (w : World) : Bool × World :=
  (true,
   { w with
     calls := w.calls ++ [Call.createDatabase c.conn name]
     server := { w.server with databases := w.server.databases ++ [{ name := name }] } })

/-- Modelled from the spec: `client.delete_database(name)` — removes
the records of that name and reports success. -/
def delete_database (c : Client) (name : String) (w : World) : Bool × World :=
  (true,
   { w with
     calls := w.calls ++ [Call.deleteDatabase c.conn name]
     server := { w.server with
                 databases := w.server.databases.filter (fun r => r.name != name) } })

/-- `client.switch_db(db)`: selects the database the next
database-scoped user call acts on (a client-side setting). -/
def switch_db (c : Client) (db : String) (w : World) : Client × World :=
  ({ c with currentDb := some db },
   { w with calls := w.calls ++ [Call.switchDb c.conn db] })

/-- Modelled from the spec: `client.get_database_users()` — lists the
users of the currently selected database, or a non-list error
indicator when listing is failing. -/
def get_database_users (c : Client) (w : World) : ListingResult × World :=
  ((if w.listingOk
    then ListingResult.list (w.server.usersOf (c.currentDb.getD ""))
    else ListingResult.other),
   { w with calls := w.calls ++ [Call.getDatabaseUsers c.conn c.currentDb] })

/-- Modelled from the spec: `client.get_list_cluster_admins()` — lists
the cluster admins, or a non-list error indicator when listing is
failing. -/
def get_list_cluster_admins (c : Client) (w : World) : ListingResult × World :=
  ((if w.listingOk then ListingResult.list w.server.clusterAdmins else ListingResult.other),
   { w with calls := w.calls ++ [Call.getListClusterAdmins c.conn] })

/-- Modelled from the spec: `client.add_database_user(name, passwd)` —
adds a user record to the currently selected database and reports
success. -/
def add_database_user (c : Client) (name passwd : String) (w : World) : Bool × World :=
  let db := c.currentDb.getD ""
  (true,
   { w with
     calls := w.calls ++ [Call.addDatabaseUser c.conn c.currentDb name passwd]
     server := { w.server with
                 dbUsers := (db, w.server.usersOf db ++ [{ name := name }]) :: w.server.dbUsers } })

/-- Modelled from the spec: `client.add_cluster_admin(name, passwd)` —
adds a cluster-admin record and reports success. -/
def add_cluster_admin (c : Client) (name passwd : String) (w : World) : Bool × World :=
  (true,
   { w with
     calls := w.calls ++ [Call.addClusterAdmin c.conn name passwd]
     server := { w.server with
                 clusterAdmins := w.server.clusterAdmins ++ [{ name := name }] } })

/-- Modelled from the spec:
`client.update_database_user_password(name, passwd)` — password values
are not tracked in the server model, so this only reports success. -/
def update_database_user_password (c : Client) (name passwd : String) (w : World) :
    Bool × World :=
  (true,
   { w with calls := w.calls ++ [Call.updateDatabaseUserPassword c.conn c.currentDb name passwd] })

/-- Modelled from the spec:
`client.update_cluster_admin_password(name, passwd)` — password values
are not tracked in the server model, so this only reports success. -/
def update_cluster_admin_password (c : Client) (name passwd : String) (w : World) :
    Bool × World :=
  (true,
   { w with calls := w.calls ++ [Call.updateClusterAdminPassword c.conn name passwd] })

/-- Modelled from the spec: `client.delete_database_user(target)` —
removes from the currently selected database the user records whose
name equals the (possibly `None`) target and reports success. -/
def delete_database_user (c : Client) (target : Option String) (w : World) : Bool × World :=
  let db := c.currentDb.getD ""
  (true,
   { w with
     calls := w.calls ++ [Call.deleteDatabaseUser c.conn c.currentDb target]
     server := { w.server with
                 dbUsers := (db, (w.server.usersOf db).filter
                   (fun r => some r.name != target)) :: w.server.dbUsers } })

/-- Modelled from the spec: `client.delete_cluster_admin(target)` —
removes the cluster-admin records whose name equals the (possibly
`None`) target and reports success. -/
def delete_cluster_admin (c : Client) (target : Option String) (w : World) : Bool × World :=
  (true,
   { w with
     calls := w.calls ++ [Call.deleteClusterAdmin c.conn target]
     server := { w.server with
                 clusterAdmins := w.server.clusterAdmins.filter
                   (fun r => some r.name != target) } })

/-- Modelled from the spec:
`client.query(q, time_precision=tp, chunked=ch)` — answers from the
abstract query function of the server, on the currently selected
database, and does not change server state. -/
def client_query (c : Client) (q tp : String) (chunked : Bool) (w : World) : Nat × World :=
  (w.server.queryRes (c.currentDb.getD "") q tp chunked,
   { w with calls := w.calls ++ [Call.queryCall c.conn c.currentDb q tp chunked] })

/-- `db_list` from the source: construct a client and forward
`get_database_list`. -/
def db_list (cfg : Config) (user password host : Option String) (port : Option Nat)
    (w : World) : ListingResult × World :=
  let c := mkClient (_client cfg user password host port)
  get_database_list c w

/-- `db_exists` from the source: list the databases; if the result is
not a list, return `False`; otherwise test `name in [db['name'] for db
in dbs]`. -/
def db_exists (cfg : Config) (name : String) (user password host : Option String)
    (port : Option Nat) (w : World) : Bool × World :=
  let r := db_list cfg user password host port w
  match r.1 with
  | ListingResult.list dbs => ((dbs.map Record.name).contains name, r.2)
  | ListingResult.other => (false, r.2)

/-- `db_create` from the source: `if db_exists(name):` (no connection
arguments are forwarded to the guard) log and return `False`; else
construct a client from the explicit arguments and forward
`create_database`. -/
def db_create (cfg : Config) (name : String) (user password host : Option String)
    (port : Option Nat) (w : World) : Bool × World :=
  let g := db_exists cfg name none none none none w
  if g.1 then (false, logInfo g.2)
  else
    let c := mkClient (_client cfg user password host port)
    create_database c name g.2

/-- `db_remove` from the source: `if not db_exists(name):` (no
connection arguments are forwarded to the guard) log and return
`False`; else construct a client from the explicit arguments and
forward `delete_database`. -/
def db_remove (cfg : Config) (name : String) (user password host : Option String)
    (port : Option Nat) (w : World) : Bool × World :=
  let g := db_exists cfg name none none none none w
  if g.1 then
    let c := mkClient (_client cfg user password host port)
    delete_database c name g.2
  else (false, logInfo g.2)

/-- `user_list` from the source: `if database:` switch to it and list
its users, else list the cluster admins. -/
def user_list (cfg : Config) (database : Option String)
    (user password host : Option String) (port : Option Nat) (w : World) :
    ListingResult × World :=
  let c := mkClient (_client cfg user password host port)
  if pyTruthyStr database then
    let s := switch_db c (database.getD "") w
    get_database_users s.1 s.2
  else get_list_cluster_admins c w

/-- `user_exists` from the source: forward all arguments to
`user_list`; if the result is not a list, return `False`; otherwise
test `name in [u['name'] for u in users]`. -/
def user_exists (cfg : Config) (name : String) (database : Option String)
    (user password host : Option String) (port : Option Nat) (w : World) : Bool × World :=
  let r := user_list cfg database user password host port w
  match r.1 with
  | ListingResult.list us => ((us.map Record.name).contains name, r.2)
  | ListingResult.other => (false, r.2)

/-- `user_create` from the source: `if user_exists(name, database):`
(no connection arguments are forwarded to the guard) log and return
`False`; else construct a client from the explicit arguments and, `if
database:`, switch and `add_database_user(name, passwd)`, else
`add_cluster_admin(name, passwd)`. -/
def user_create (cfg : Config) (name passwd : String) (database : Option String)
    (user password host : Option String) (port : Option Nat) (w : World) : Bool × World :=
  let g := user_exists cfg name database none none none none w
  if g.1 then (false, logInfo g.2)
  else
    let c := mkClient (_client cfg user password host port)
    if pyTruthyStr database then
      let s := switch_db c (database.getD "") g.2
      add_database_user s.1 name passwd s.2
    else add_cluster_admin c name passwd g.2

/-- `user_chpass` from the source: `if not user_exists(name,
database):` (no connection arguments are forwarded to the guard) log
and return `False`; else construct a client from the explicit
arguments and, `if database:`, switch and
`update_database_user_password(name, passwd)`, else
`update_cluster_admin_password(name, passwd)`. -/
def user_chpass (cfg : Config) (name passwd : String) (database : Option String)
    (user password host : Option String) (port : Option Nat) (w : World) : Bool × World :=
  let g := user_exists cfg name database none none none none w
  if g.1 then
    let c := mkClient (_client cfg user password host port)
    if pyTruthyStr database then
      let s := switch_db c (database.getD "") g.2
      update_database_user_password s.1 name passwd s.2
    else update_cluster_admin_password c name passwd g.2
  else (false, logInfo g.2)

/-- `user_remove` from the source: `if not user_exists(name,
database):` log and return `False`; else construct a client and, `if
database:`, switch and `delete_database_user(user)`, else
`delete_cluster_admin(user)`.  Note that the source passes the
connection parameter `user`, not the target `name`, to both delete
calls. -/
def user_remove (cfg : Config) (name : String) (database : Option String)
    (user password host : Option String) (port : Option Nat) (w : World) : Bool × World :=
  let g := user_exists cfg name database none none none none w
  if g.1 then
    let c := mkClient (_client cfg user password host port)
    if pyTruthyStr database then
      let s := switch_db c (database.getD "") g.2
      delete_database_user s.1 user s.2
    else delete_cluster_admin c user g.2
  else (false, logInfo g.2)

/-- `query` from the source: construct a client, switch to the target
database and forward the query text, time precision and chunked flag
verbatim.  The `Option` wrappers on `time_precision` and `chunked`
model the Python default arguments `time_precision='s'` and
`chunked=False`. -/
def query (cfg : Config) (database q : String) (time_precision : Option String)
    (chunked : Option Bool) (user password host : Option String) (port : Option Nat)
    (w : World) : Nat × World :=
  let c := mkClient (_client cfg user password host port)
  let s := switch_db c database w
  client_query s.1 q (time_precision.getD "s") (chunked.getD false) s.2

/-- The calls a module invocation added to the trace: the final trace
with the initial trace stripped off the front. -/
def newCalls (w w' : World) : List Call := w'.calls.drop w.calls.length

/-- The collection a user-operation guard inspects: database users when
a database is (truthily) given, cluster admins otherwise. -/
def listedUsers (s : Server) (db : Option String) : List Record :=
  if pyTruthyStr db then s.usersOf (db.getD "") else s.clusterAdmins

/-- The calls a `user_list` invocation issues. -/
def userListCalls (c : Conn) (db : Option String) : List Call :=
  if pyTruthyStr db then
    [Call.switchDb c (db.getD ""), Call.getDatabaseUsers c (some (db.getD ""))]
  else [Call.getListClusterAdmins c]

/-- Fixture: a configuration store with every influxdb key set. -/
def cfgW : Config := ⟨some "cu", some "cp", some "chost", some 9000⟩

/-- Fixture: a small server state with one database, one cluster admin
and one database-scoped user. -/
def serverW : Server :=
  ⟨[Record.mk "metrics"], [Record.mk "alice"],
   [("metrics", [Record.mk "bob"])], fun _ _ _ _ => 7⟩

/-- Fixture: a healthy world (listing calls return proper lists). -/
def worldW : World := ⟨serverW, true, [], 0⟩

/-- Fixture: a world whose listing calls return a non-list error
indicator. -/
def worldBad : World := ⟨serverW, false, [], 0⟩


theorem db_list_eq (cfg : Config) (u p h : Option String) (pt : Option Nat) (w : World) :
    db_list cfg u p h pt w =
      ((if w.listingOk then ListingResult.list w.server.databases else ListingResult.other),
       { w with calls := w.calls ++ [Call.getDatabaseList (_client cfg u p h pt)] }) := rfl

theorem db_exists_eq (cfg : Config) (name : String) (u p h : Option String) (pt : Option Nat)
    (w : World) :
    db_exists cfg name u p h pt w =
      ((w.listingOk && (w.server.databases.map Record.name).contains name),
       { w with calls := w.calls ++ [Call.getDatabaseList (_client cfg u p h pt)] }) := by
  cases hl : w.listingOk <;>
    simp [db_exists, db_list, get_database_list, mkClient, hl]

theorem user_list_eq_db (cfg : Config) (db : Option String) (u p h : Option String)
    (pt : Option Nat) (w : World) (hdb : pyTruthyStr db = true) :
    user_list cfg db u p h pt w =
      ((if w.listingOk then ListingResult.list (w.server.usersOf (db.getD ""))
        else ListingResult.other),
       { w with calls := w.calls ++
          [Call.switchDb (_client cfg u p h pt) (db.getD ""),
           Call.getDatabaseUsers (_client cfg u p h pt) (some (db.getD ""))] }) := by
  simp [user_list, hdb, switch_db, get_database_users, mkClient]

theorem user_list_eq_cluster (cfg : Config) (db : Option String) (u p h : Option String)
    (pt : Option Nat) (w : World) (hdb : pyTruthyStr db = false) :
    user_list cfg db u p h pt w =
      ((if w.listingOk then ListingResult.list w.server.clusterAdmins
        else ListingResult.other),
       { w with calls := w.calls ++ [Call.getListClusterAdmins (_client cfg u p h pt)] }) := by
  simp [user_list, hdb, get_list_cluster_admins, mkClient]

theorem user_exists_eq (cfg : Config) (name : String) (db : Option String)
    (u p h : Option String) (pt : Option Nat) (w : World) :
    user_exists cfg name db u p h pt w =
      ((w.listingOk && ((listedUsers w.server db).map Record.name).contains name),
       { w with calls := w.calls ++ userListCalls (_client cfg u p h pt) db }) := by
  cases hdb : pyTruthyStr db <;> cases hl : w.listingOk <;>
    simp [user_exists, user_list_eq_db, user_list_eq_cluster, hdb, hl, listedUsers,
      userListCalls]

theorem db_create_eq (cfg : Config) (name : String) (u p h : Option String)
    (pt : Option Nat) (w : World) :
    db_create cfg name u p h pt w =
      if w.listingOk && (w.server.databases.map Record.name).contains name then
        (false,
         { w with calls := w.calls ++ [Call.getDatabaseList (_client cfg none none none none)]
                  infoLogs := w.infoLogs + 1 })
      else
        (true,
         { w with
           calls := w.calls ++ [Call.getDatabaseList (_client cfg none none none none),
                                Call.createDatabase (_client cfg u p h pt) name]
           server := { w.server with databases := w.server.databases ++ [{ name := name }] } }) := by
  simp only [db_create, db_exists_eq]
  split <;> rename_i hex <;> simp [hex, logInfo, create_database, mkClient]

theorem db_remove_eq (cfg : Config) (name : String) (u p h : Option String)
    (pt : Option Nat) (w : World) :
    db_remove cfg name u p h pt w =
      if w.listingOk && (w.server.databases.map Record.name).contains name then
        (true,
         { w with
           calls := w.calls ++ [Call.getDatabaseList (_client cfg none none none none),
                                Call.deleteDatabase (_client cfg u p h pt) name]
           server := { w.server with
                       databases := w.server.databases.filter (fun r => r.name != name) } })
      else
        (false,
         { w with calls := w.calls ++ [Call.getDatabaseList (_client cfg none none none none)]
                  infoLogs := w.infoLogs + 1 }) := by
  simp only [db_remove, db_exists_eq]
  split <;> rename_i hex <;> simp [hex, logInfo, delete_database, mkClient]

theorem user_create_eq (cfg : Config) (name passwd : String) (db : Option String)
    (u p h : Option String) (pt : Option Nat) (w : World) :
    user_create cfg name passwd db u p h pt w =
      if w.listingOk && ((listedUsers w.server db).map Record.name).contains name then
        (false,
         { w with calls := w.calls ++ userListCalls (_client cfg none none none none) db
                  infoLogs := w.infoLogs + 1 })
      else if pyTruthyStr db then
        (true,
         { w with
           calls := w.calls ++ userListCalls (_client cfg none none none none) db ++
             [Call.switchDb (_client cfg u p h pt) (db.getD ""),
              Call.addDatabaseUser (_client cfg u p h pt) (some (db.getD "")) name passwd]
           server := { w.server with
                       dbUsers := (db.getD "", w.server.usersOf (db.getD "") ++ [{ name := name }])
                         :: w.server.dbUsers } })
      else
        (true,
         { w with
           calls := w.calls ++ userListCalls (_client cfg none none none none) db ++
             [Call.addClusterAdmin (_client cfg u p h pt) name passwd]
           server := { w.server with
                       clusterAdmins := w.server.clusterAdmins ++ [{ name := name }] } }) := by
  simp only [user_create, user_exists_eq]
  split <;> rename_i hex
  · simp [hex, logInfo]
  · cases hdb : pyTruthyStr db <;>
      simp [hex, hdb, switch_db, add_database_user, add_cluster_admin, mkClient]

theorem user_chpass_eq (cfg : Config) (name passwd : String) (db : Option String)
    (u p h : Option String) (pt : Option Nat) (w : World) :
    user_chpass cfg name passwd db u p h pt w =
      if w.listingOk && ((listedUsers w.server db).map Record.name).contains name then
        (if pyTruthyStr db then
          (true,
           { w with
             calls := w.calls ++ userListCalls (_client cfg none none none none) db ++
               [Call.switchDb (_client cfg u p h pt) (db.getD ""),
                Call.updateDatabaseUserPassword (_client cfg u p h pt) (some (db.getD ""))
                  name passwd] })
        else
          (true,
           { w with
             calls := w.calls ++ userListCalls (_client cfg none none none none) db ++
               [Call.updateClusterAdminPassword (_client cfg u p h pt) name passwd] }))
      else
        (false,
         { w with calls := w.calls ++ userListCalls (_client cfg none none none none) db
                  infoLogs := w.infoLogs + 1 }) := by
  simp only [user_chpass, user_exists_eq]
  split <;> rename_i hex
  · cases hdb : pyTruthyStr db <;>
      simp [hex, hdb, switch_db, update_database_user_password,
        update_cluster_admin_password, mkClient]
  · simp [hex, logInfo]

theorem user_remove_eq (cfg : Config) (name : String) (db : Option String)
    (u p h : Option String) (pt : Option Nat) (w : World) :
    user_remove cfg name db u p h pt w =
      if w.listingOk && ((listedUsers w.server db).map Record.name).contains name then
        (if pyTruthyStr db then
          (true,
           { w with
             calls := w.calls ++ userListCalls (_client cfg none none none none) db ++
               [Call.switchDb (_client cfg u p h pt) (db.getD ""),
                Call.deleteDatabaseUser (_client cfg u p h pt) (some (db.getD "")) u]
             server := { w.server with
                         dbUsers := (db.getD "", (w.server.usersOf (db.getD "")).filter
                           (fun r => some r.name != u)) :: w.server.dbUsers } })
        else
          (true,
           { w with
             calls := w.calls ++ userListCalls (_client cfg none none none none) db ++
               [Call.deleteClusterAdmin (_client cfg u p h pt) u]
             server := { w.server with
                         clusterAdmins := w.server.clusterAdmins.filter
                           (fun r => some r.name != u) } }))
      else
        (false,
         { w with calls := w.calls ++ userListCalls (_client cfg none none none none) db
                  infoLogs := w.infoLogs + 1 }) := by
  simp only [user_remove, user_exists_eq]
  split <;> rename_i hex
  · cases hdb : pyTruthyStr db <;>
      simp [hex, hdb, switch_db, delete_database_user, delete_cluster_admin, mkClient]
  · simp [hex, logInfo]

theorem query_eq (cfg : Config) (db q : String) (tp : Option String) (ch : Option Bool)
    (u p h : Option String) (pt : Option Nat) (w : World) :
    query cfg db q tp ch u p h pt w =
      (w.server.queryRes db q (tp.getD "s") (ch.getD false),
       { w with calls := w.calls ++
          [Call.switchDb (_client cfg u p h pt) db,
           Call.queryCall (_client cfg u p h pt) (some db) q (tp.getD "s") (ch.getD false)] }) := by
  simp [query, switch_db, client_query, mkClient]

/-- C3: fail-open existence check — whenever the listing call returns
something that is not a list (the in-band error indicator), both
`db_exists` and `user_exists` return false instead of propagating the
error (they are total functions, so nothing is raised). -/
theorem claim_C3 (cfg : Config) (name : String) (db : Option String)
    (u p h : Option String) (pt : Option Nat) (w : World)
    (hl : w.listingOk = false) :
    (db_list cfg u p h pt w).1 = ListingResult.other
    ∧ (db_exists cfg name u p h pt w).1 = false
    ∧ (user_list cfg db u p h pt w).1 = ListingResult.other
    ∧ (user_exists cfg name db u p h pt w).1 = false := by
  refine ⟨?_, ?_, ?_, ?_⟩
  · simp [db_list_eq, hl]
  · simp [db_exists_eq, hl]
  · cases hdb : pyTruthyStr db
    · simp [user_list_eq_cluster cfg db u p h pt w hdb, hl]
    · simp [user_list_eq_db cfg db u p h pt w hdb, hl]
  · simp [user_exists_eq, hl]

/-- C3 witness: the fail-open check evaluated in the concrete world
whose listing calls return the error indicator. -/
theorem claim_C3_witness :
    worldBad.listingOk = false
    ∧ ((db_list ⟨none, none, none, none⟩ none none none none worldBad).1 = ListingResult.other
      ∧ (db_exists ⟨none, none, none, none⟩ "metrics" none none none none worldBad).1 = false
      ∧ (user_list ⟨none, none, none, none⟩ (some "metrics") none none none none worldBad).1 =
          ListingResult.other
      ∧ (user_exists ⟨none, none, none, none⟩ "metrics" (some "metrics") none none none none
          worldBad).1 = false) :=
  ⟨rfl, claim_C3 ⟨none, none, none, none⟩ "metrics" (some "metrics") none none none none
    worldBad rfl⟩

/-- C4: three-level parameter resolution — for each of user, password,
host and port, a (truthy) explicit argument wins; an absent argument
falls back to the configuration option; an absent configuration option
falls back to the built-in default (root / root / localhost / 8086).
`_client` is a total function, so resolution always produces a
complete configuration. -/
theorem claim_C4 (cfg : Config) (uu pp hh : String) (pn : Nat)
    (u' p' h' : Option String) (pt' : Option Nat)
    (hu : uu ≠ "") (hp : pp ≠ "") (hh' : hh ≠ "") (hpn : pn ≠ 0) :
    ((_client cfg (some uu) p' h' pt').user = uu
      ∧ (_client cfg none p' h' pt').user = cfg.user.getD "root")
    ∧ ((_client cfg u' (some pp) h' pt').password = pp
      ∧ (_client cfg u' none h' pt').password = cfg.password.getD "root")
    ∧ ((_client cfg u' p' (some hh) pt').host = hh
      ∧ (_client cfg u' p' none pt').host = cfg.host.getD "localhost")
    ∧ ((_client cfg u' p' h' (some pn)).port = pn
      ∧ (_client cfg u' p' h' none).port = cfg.port.getD 8086)
    ∧ _client ⟨none, none, none, none⟩ none none none none =
        ⟨"root", "root", "localhost", 8086⟩ := by
  simp [_client, pyTruthyStr, pyTruthyNat, hu, hp, hh', hpn]

/-- C4 witness: the precedence matrix evaluated at concrete values,
against a configuration store with every key set. -/
theorem claim_C4_witness :
    "eu" ≠ "" ∧ "ep" ≠ "" ∧ "eh" ≠ "" ∧ (1234 : Nat) ≠ 0
    ∧ (((_client cfgW (some "eu") none none none).user = "eu"
        ∧ (_client cfgW none none none none).user = cfgW.user.getD "root")
      ∧ ((_client cfgW none (some "ep") none none).password = "ep"
        ∧ (_client cfgW none none none none).password = cfgW.password.getD "root")
      ∧ ((_client cfgW none none (some "eh") none).host = "eh"
        ∧ (_client cfgW none none none none).host = cfgW.host.getD "localhost")
      ∧ ((_client cfgW none none none (some 1234)).port = 1234
        ∧ (_client cfgW none none none none).port = cfgW.port.getD 8086)
      ∧ _client ⟨none, none, none, none⟩ none none none none =
          ⟨"root", "root", "localhost", 8086⟩) :=
  ⟨by decide, by decide, by decide, by decide,
   claim_C4 cfgW "eu" "ep" "eh" 1234 none none none none
     (by decide) (by decide) (by decide) (by decide)⟩

/-- C7: query forwarding is a verbatim passthrough — for every
database, query string, time precision and chunked flag, `query`
switches the client to the database, forwards the text and both
options unchanged, returns the raw client result untransformed and
changes no server state; when the options are not supplied they
default to time precision `s` and chunked false. -/
theorem claim_C7 (cfg : Config) (db q tp : String) (ch : Bool)
    (u p h : Option String) (pt : Option Nat) (w : World) :
    (query cfg db q (some tp) (some ch) u p h pt w).1 = w.server.queryRes db q tp ch
    ∧ (query cfg db q (some tp) (some ch) u p h pt w).2.server = w.server
    ∧ newCalls w (query cfg db q (some tp) (some ch) u p h pt w).2 =
        [Call.switchDb (_client cfg u p h pt) db,
         Call.queryCall (_client cfg u p h pt) (some db) q tp ch]
    ∧ query cfg db q none none u p h pt w =
        query cfg db q (some "s") (some false) u p h pt w := by
  refine ⟨?_, ?_, ?_, ?_⟩
  · simp [query_eq]
  · simp [query_eq]
  · simp [query_eq, newCalls, List.drop_left]
  · simp [query_eq]

/-- C10: parameter presence is decided by truthiness — an explicitly
passed but falsy connection argument (empty string, port 0) is
resolved exactly as an absent one, and an empty-string database
argument makes every principal operation (`user_list`, `user_exists`,
`user_create`, `user_chpass`, `user_remove`) behave exactly as with an
absent database, i.e. it routes to the cluster-admin branch. -/
theorem claim_C10 (cfg : Config) (name passwd : String) (u p h : Option String)
    (pt : Option Nat) (w : World) :
    _client cfg (some "") p h pt = _client cfg none p h pt
    ∧ _client cfg u (some "") h pt = _client cfg u none h pt
    ∧ _client cfg u p (some "") pt = _client cfg u p none pt
    ∧ _client cfg u p h (some 0) = _client cfg u p h none
    ∧ user_list cfg (some "") u p h pt w = user_list cfg none u p h pt w
    ∧ user_exists cfg name (some "") u p h pt w = user_exists cfg name none u p h pt w
    ∧ user_create cfg name passwd (some "") u p h pt w =
        user_create cfg name passwd none u p h pt w
    ∧ user_chpass cfg name passwd (some "") u p h pt w =
        user_chpass cfg name passwd none u p h pt w
    ∧ user_remove cfg name (some "") u p h pt w =
        user_remove cfg name none u p h pt w := by
  refine ⟨?_, ?_, ?_, ?_, ?_, ?_, ?_, ?_, ?_⟩
  · simp [_client, pyTruthyStr]
  · simp [_client, pyTruthyStr]
  · simp [_client, pyTruthyStr]
  · simp [_client, pyTruthyNat]
  · simp [user_list, pyTruthyStr]
  · simp [user_exists, user_list, pyTruthyStr]
  · simp [user_create_eq, listedUsers, userListCalls, pyTruthyStr]
  · simp [user_chpass_eq, listedUsers, userListCalls, pyTruthyStr]
  · simp [user_remove_eq, listedUsers, userListCalls, pyTruthyStr]

/-- C8: when the listing call returns a proper list, `db_exists` and
`user_exists` report true exactly when some record of the listed
collection has its name field equal (string equality) to the queried
name — membership is exact name match, in each of the three
collections (databases, cluster admins, database-scoped users). -/
theorem claim_C8 (cfg : Config) (name d : String) (u p h : Option String)
    (pt : Option Nat) (w : World) (hl : w.listingOk = true) (hd : d ≠ "") :
    ((db_exists cfg name u p h pt w).1 = true ↔
      ∃ r ∈ w.server.databases, r.name = name)
    ∧ ((user_exists cfg name none u p h pt w).1 = true ↔
      ∃ r ∈ w.server.clusterAdmins, r.name = name)
    ∧ ((user_exists cfg name (some d) u p h pt w).1 = true ↔
      ∃ r ∈ w.server.usersOf d, r.name = name) := by
  refine ⟨?_, ?_, ?_⟩
  · simp [db_exists_eq, hl]
  · simp [user_exists_eq, hl, listedUsers, pyTruthyStr]
  · simp [user_exists_eq, hl, listedUsers, pyTruthyStr, hd]

/-- C8 witness: exact-match membership evaluated in the concrete
healthy world, where the queried names are present. -/
theorem claim_C8_witness :
    worldW.listingOk = true ∧ "metrics" ≠ ""
    ∧ (((db_exists cfgW "alice" none none none none worldW).1 = true ↔
        ∃ r ∈ worldW.server.databases, r.name = "alice")
      ∧ ((user_exists cfgW "alice" none none none none none worldW).1 = true ↔
        ∃ r ∈ worldW.server.clusterAdmins, r.name = "alice")
      ∧ ((user_exists cfgW "alice" (some "metrics") none none none none worldW).1 = true ↔
        ∃ r ∈ worldW.server.usersOf "metrics", r.name = "alice")) :=
  ⟨rfl, by decide,
   claim_C8 cfgW "alice" "metrics" none none none none worldW rfl (by decide)⟩

/-- C2: guarded removal and password change — when the existence check
reports the target absent, `db_remove`, `user_remove` and
`user_chpass` return the sentinel false, issue no remote mutating call
at all and leave the server untouched; when the target exists, exactly
one mutating action call is issued and its (client) result is
returned. -/
theorem claim_C2 (cfg : Config) (name passwd : String) (db : Option String)
    (u p h : Option String) (pt : Option Nat) (w : World) :
    ((db_exists cfg name none none none none w).1 = false →
      (db_remove cfg name u p h pt w).1 = false
      ∧ (newCalls w (db_remove cfg name u p h pt w).2).filter Call.isMutating = []
      ∧ (db_remove cfg name u p h pt w).2.server = w.server)
    ∧ ((user_exists cfg name db none none none none w).1 = false →
      ((user_remove cfg name db u p h pt w).1 = false
        ∧ (newCalls w (user_remove cfg name db u p h pt w).2).filter Call.isMutating = []
        ∧ (user_remove cfg name db u p h pt w).2.server = w.server)
      ∧ ((user_chpass cfg name passwd db u p h pt w).1 = false
        ∧ (newCalls w (user_chpass cfg name passwd db u p h pt w).2).filter
            Call.isMutating = []
        ∧ (user_chpass cfg name passwd db u p h pt w).2.server = w.server))
    ∧ ((db_exists cfg name none none none none w).1 = true →
      ((newCalls w (db_remove cfg name u p h pt w).2).filter Call.isMutating).length = 1
      ∧ (db_remove cfg name u p h pt w).1 = true)
    ∧ ((user_exists cfg name db none none none none w).1 = true →
      (((newCalls w (user_remove cfg name db u p h pt w).2).filter
          Call.isMutating).length = 1
        ∧ (user_remove cfg name db u p h pt w).1 = true)
      ∧ (((newCalls w (user_chpass cfg name passwd db u p h pt w).2).filter
          Call.isMutating).length = 1
        ∧ (user_chpass cfg name passwd db u p h pt w).1 = true)) := by
  refine ⟨?_, ?_, ?_, ?_⟩
  · intro hex
    simp only [db_exists_eq] at hex
    refine ⟨?_, ?_, ?_⟩ <;>
      · simp only [db_remove_eq, hex]
        simp [newCalls, List.drop_left, Call.isMutating]
  · intro hex
    simp only [user_exists_eq] at hex
    cases hdb : pyTruthyStr db <;>
      refine ⟨⟨?_, ?_, ?_⟩, ?_, ?_, ?_⟩ <;>
        · simp only [user_remove_eq, user_chpass_eq, hex]
          simp [hdb, newCalls, List.drop_left, Call.isMutating, userListCalls]
  · intro hex
    simp only [db_exists_eq] at hex
    refine ⟨?_, ?_⟩ <;>
      · simp only [db_remove_eq, hex]
        simp [newCalls, List.drop_left, Call.isMutating]
  · intro hex
    simp only [user_exists_eq] at hex
    cases hdb : pyTruthyStr db <;>
      refine ⟨⟨?_, ?_⟩, ?_, ?_⟩ <;>
        · simp only [user_remove_eq, user_chpass_eq, hex]
          simp [hdb, newCalls, List.drop_left, Call.isMutating, userListCalls]

/-- C2 witness: in the concrete healthy world, removing the absent
database `carol` is a silent no-op with no mutating call, while
removing / re-password-ing the present cluster admin `alice` issues
exactly one mutating call. -/
theorem claim_C2_witness :
    ((db_exists cfgW "carol" none none none none worldW).1 = false)
    ∧ ((db_remove cfgW "carol" (some "eu") none none none worldW).1 = false
      ∧ (newCalls worldW (db_remove cfgW "carol" (some "eu") none none none worldW).2).filter
          Call.isMutating = []
      ∧ (db_remove cfgW "carol" (some "eu") none none none worldW).2.server = worldW.server)
    ∧ ((user_exists cfgW "alice" none none none none none worldW).1 = true)
    ∧ ((((newCalls worldW (user_remove cfgW "alice" none (some "eu") none none none
          worldW).2).filter Call.isMutating).length = 1
        ∧ (user_remove cfgW "alice" none (some "eu") none none none worldW).1 = true)
      ∧ (((newCalls worldW (user_chpass cfgW "alice" "pw" none (some "eu") none none none
          worldW).2).filter Call.isMutating).length = 1
        ∧ (user_chpass cfgW "alice" "pw" none (some "eu") none none none worldW).1 = true)) :=
  ⟨by decide,
   (claim_C2 cfgW "carol" "pw" none (some "eu") none none none worldW).1 (by decide),
   by decide,
   (claim_C2 cfgW "alice" "pw" none (some "eu") none none none worldW).2.2.2 (by decide)⟩

/-- C5: scope disambiguation — every principal operation called with
`database=None` issues only cluster-admin-family calls (and is never
an error: the functions are total), while calling it with a non-empty
database name issues a database switch first and then only
database-scoped-family calls. -/
theorem claim_C5 (cfg : Config) (name passwd d : String) (u p h : Option String)
    (pt : Option Nat) (w : World) (hd : d ≠ "") :
    ((newCalls w (user_list cfg none u p h pt w).2).all Call.clusterFamily = true
      ∧ (newCalls w (user_exists cfg name none u p h pt w).2).all Call.clusterFamily = true
      ∧ (newCalls w (user_create cfg name passwd none u p h pt w).2).all
          Call.clusterFamily = true
      ∧ (newCalls w (user_chpass cfg name passwd none u p h pt w).2).all
          Call.clusterFamily = true
      ∧ (newCalls w (user_remove cfg name none u p h pt w).2).all Call.clusterFamily = true)
    ∧ ((newCalls w (user_list cfg (some d) u p h pt w).2).all Call.dbFamily = true
      ∧ (newCalls w (user_list cfg (some d) u p h pt w).2).head? =
          some (Call.switchDb (_client cfg u p h pt) d))
    ∧ ((newCalls w (user_exists cfg name (some d) u p h pt w).2).all Call.dbFamily = true
      ∧ (newCalls w (user_exists cfg name (some d) u p h pt w).2).head? =
          some (Call.switchDb (_client cfg u p h pt) d))
    ∧ ((newCalls w (user_create cfg name passwd (some d) u p h pt w).2).all
          Call.dbFamily = true
      ∧ (newCalls w (user_create cfg name passwd (some d) u p h pt w).2).head? =
          some (Call.switchDb (_client cfg none none none none) d))
    ∧ ((newCalls w (user_chpass cfg name passwd (some d) u p h pt w).2).all
          Call.dbFamily = true
      ∧ (newCalls w (user_chpass cfg name passwd (some d) u p h pt w).2).head? =
          some (Call.switchDb (_client cfg none none none none) d))
    ∧ ((newCalls w (user_remove cfg name (some d) u p h pt w).2).all Call.dbFamily = true
      ∧ (newCalls w (user_remove cfg name (some d) u p h pt w).2).head? =
          some (Call.switchDb (_client cfg none none none none) d)) := by
  have htd : pyTruthyStr (some d) = true := by simp [pyTruthyStr, hd]
  have hfd : pyTruthyStr (none : Option String) = false := rfl
  refine ⟨⟨?_, ?_, ?_, ?_, ?_⟩, ⟨?_, ?_⟩, ⟨?_, ?_⟩, ⟨?_, ?_⟩, ⟨?_, ?_⟩, ⟨?_, ?_⟩⟩
  · simp [user_list_eq_cluster cfg none u p h pt w hfd, newCalls, List.drop_left,
      Call.clusterFamily]
  · simp [user_exists_eq, userListCalls, hfd, newCalls, List.drop_left, Call.clusterFamily]
  · simp only [user_create_eq]
    split <;> simp [userListCalls, hfd, newCalls, List.drop_left, Call.clusterFamily]
  · simp only [user_chpass_eq]
    split <;> simp [userListCalls, hfd, newCalls, List.drop_left, Call.clusterFamily]
  · simp only [user_remove_eq]
    split <;> simp [userListCalls, hfd, newCalls, List.drop_left, Call.clusterFamily]
  · simp [user_list_eq_db cfg (some d) u p h pt w htd, newCalls, List.drop_left,
      Call.dbFamily]
  · simp [user_list_eq_db cfg (some d) u p h pt w htd, newCalls, List.drop_left]
  · simp [user_exists_eq, userListCalls, htd, newCalls, List.drop_left, Call.dbFamily]
  · simp [user_exists_eq, userListCalls, htd, newCalls, List.drop_left]
  · simp only [user_create_eq]
    split <;> simp [userListCalls, htd, newCalls, List.drop_left, Call.dbFamily]
  · simp only [user_create_eq]
    split <;> simp [userListCalls, htd, newCalls, List.drop_left]
  · simp only [user_chpass_eq]
    split <;> simp [userListCalls, htd, newCalls, List.drop_left, Call.dbFamily]
  · simp only [user_chpass_eq]
    split <;> simp [userListCalls, htd, newCalls, List.drop_left]
  · simp only [user_remove_eq]
    split <;> simp [userListCalls, htd, newCalls, List.drop_left, Call.dbFamily]
  · simp only [user_remove_eq]
    split <;> simp [userListCalls, htd, newCalls, List.drop_left]

/-- C5 witness: in the concrete world, creating a principal without a
database issues only cluster-admin-family calls, and creating one in
`metrics` starts with a switch to `metrics` followed only by
database-scoped calls. -/
theorem claim_C5_witness :
    "metrics" ≠ ""
    ∧ (newCalls worldW
        (user_create cfgW "carol" "pw" none none none none none worldW).2).all
        Call.clusterFamily = true
    ∧ ((newCalls worldW
        (user_create cfgW "carol" "pw" (some "metrics") none none none none worldW).2).all
        Call.dbFamily = true
      ∧ (newCalls worldW
          (user_create cfgW "carol" "pw" (some "metrics") none none none none
            worldW).2).head? =
          some (Call.switchDb (_client cfgW none none none none) "metrics")) :=
  ⟨by decide,
   (claim_C5 cfgW "carol" "pw" "metrics" none none none none worldW (by decide)).1.2.2.1,
   (claim_C5 cfgW "carol" "pw" "metrics" none none none none worldW (by decide)).2.2.2.1⟩

/-- C9: the existence check embedded in every guarded mutation ignores
the explicit connection arguments — the guard prefix of the trace of
`db_create`, `db_remove`, `user_create`, `user_chpass` and
`user_remove` is exactly the trace of the exists check invoked with
only the name (and database), i.e. with default-resolved connection
values, for every choice of explicit arguments; every call after that
prefix uses the explicitly resolved connection values. -/
theorem claim_C9 (cfg : Config) (name passwd : String) (db : Option String)
    (u p h : Option String) (pt : Option Nat) (w : World) :
    ((newCalls w (db_create cfg name u p h pt w).2).take 1 =
        newCalls w (db_exists cfg name none none none none w).2
      ∧ ((newCalls w (db_create cfg name u p h pt w).2).drop 1).all
          (fun c => Call.conn c == _client cfg u p h pt) = true)
    ∧ ((newCalls w (db_remove cfg name u p h pt w).2).take 1 =
        newCalls w (db_exists cfg name none none none none w).2
      ∧ ((newCalls w (db_remove cfg name u p h pt w).2).drop 1).all
          (fun c => Call.conn c == _client cfg u p h pt) = true)
    ∧ ((newCalls w (user_create cfg name passwd db u p h pt w).2).take
          (newCalls w (user_exists cfg name db none none none none w).2).length =
        newCalls w (user_exists cfg name db none none none none w).2
      ∧ ((newCalls w (user_create cfg name passwd db u p h pt w).2).drop
          (newCalls w (user_exists cfg name db none none none none w).2).length).all
          (fun c => Call.conn c == _client cfg u p h pt) = true)
    ∧ ((newCalls w (user_chpass cfg name passwd db u p h pt w).2).take
          (newCalls w (user_exists cfg name db none none none none w).2).length =
        newCalls w (user_exists cfg name db none none none none w).2
      ∧ ((newCalls w (user_chpass cfg name passwd db u p h pt w).2).drop
          (newCalls w (user_exists cfg name db none none none none w).2).length).all
          (fun c => Call.conn c == _client cfg u p h pt) = true)
    ∧ ((newCalls w (user_remove cfg name db u p h pt w).2).take
          (newCalls w (user_exists cfg name db none none none none w).2).length =
        newCalls w (user_exists cfg name db none none none none w).2
      ∧ ((newCalls w (user_remove cfg name db u p h pt w).2).drop
          (newCalls w (user_exists cfg name db none none none none w).2).length).all
          (fun c => Call.conn c == _client cfg u p h pt) = true) := by
  refine ⟨⟨?_, ?_⟩, ⟨?_, ?_⟩, ⟨?_, ?_⟩, ⟨?_, ?_⟩, ⟨?_, ?_⟩⟩ <;>
    · first
      | (simp only [db_create_eq]
         split <;> simp [db_exists_eq, newCalls, List.drop_left, Call.conn])
      | (simp only [db_remove_eq]
         split <;> simp [db_exists_eq, newCalls, List.drop_left, Call.conn])
      | (simp only [user_create_eq]
         cases hdb : pyTruthyStr db <;>
           (split <;>
              simp [user_exists_eq, userListCalls, hdb, newCalls, List.drop_left, Call.conn]))
      | (simp only [user_chpass_eq]
         cases hdb : pyTruthyStr db <;>
           (split <;>
              simp [user_exists_eq, userListCalls, hdb, newCalls, List.drop_left, Call.conn]))
      | (simp only [user_remove_eq]
         cases hdb : pyTruthyStr db <;>
           (split <;>
              simp [user_exists_eq, userListCalls, hdb, newCalls, List.drop_left, Call.conn]))

/-- Prepending an entry for a database to the per-database user table
makes that entry the one `usersOf` finds. -/
theorem Server.usersOf_cons (dbs ca : List Record) (qr : String → String → String → Bool → Nat)
    (d : String) (us : List Record) (rest : List (String × List Record)) :
    Server.usersOf ⟨dbs, ca, (d, us) :: rest, qr⟩ d = us := by
  simp [Server.usersOf]

/-- C1: create is idempotent through its existence guard — when the
exists check reports the database (resp. principal) present,
`db_create` (resp. `user_create`) skips the remote create call (no
mutating call is issued, the server is untouched), logs one
informational message and returns the sentinel false; and, with
listing working, calling create twice in immediate succession makes
the second call a no-op returning false that leaves the server (hence
the collection size) unchanged. -/
theorem claim_C1 (cfg : Config) (name passwd : String) (db : Option String)
    (u p h : Option String) (pt : Option Nat) (w : World)
    (hl : w.listingOk = true) :
    ((db_exists cfg name none none none none w).1 = true →
      (db_create cfg name u p h pt w).1 = false
      ∧ (db_create cfg name u p h pt w).2.server = w.server
      ∧ (db_create cfg name u p h pt w).2.infoLogs = w.infoLogs + 1
      ∧ (newCalls w (db_create cfg name u p h pt w).2).filter Call.isMutating = [])
    ∧ ((user_exists cfg name db none none none none w).1 = true →
      (user_create cfg name passwd db u p h pt w).1 = false
      ∧ (user_create cfg name passwd db u p h pt w).2.server = w.server
      ∧ (user_create cfg name passwd db u p h pt w).2.infoLogs = w.infoLogs + 1
      ∧ (newCalls w (user_create cfg name passwd db u p h pt w).2).filter
          Call.isMutating = [])
    ∧ ((db_create cfg name u p h pt (db_create cfg name u p h pt w).2).1 = false
      ∧ (db_create cfg name u p h pt (db_create cfg name u p h pt w).2).2.server =
          (db_create cfg name u p h pt w).2.server)
    ∧ ((user_create cfg name passwd db u p h pt
          (user_create cfg name passwd db u p h pt w).2).1 = false
      ∧ (user_create cfg name passwd db u p h pt
          (user_create cfg name passwd db u p h pt w).2).2.server =
          (user_create cfg name passwd db u p h pt w).2.server) := by
  refine ⟨?_, ?_, ?_, ?_⟩
  · intro hex
    simp only [db_exists_eq] at hex
    refine ⟨?_, ?_, ?_, ?_⟩ <;>
      · simp only [db_create_eq, hex]
        simp [newCalls, List.drop_left, Call.isMutating]
  · intro hex
    simp only [user_exists_eq] at hex
    cases hdb : pyTruthyStr db <;>
      refine ⟨?_, ?_, ?_, ?_⟩ <;>
        · simp only [user_create_eq, hex]
          simp [hdb, newCalls, List.drop_left, Call.isMutating, userListCalls]
  · by_cases hc : ∃ a ∈ w.server.databases, a.name = name <;>
      simp [db_create_eq, hl, hc]
  · cases hdb : pyTruthyStr db
    · by_cases hc : ∃ a ∈ w.server.clusterAdmins, a.name = name <;>
        simp [user_create_eq, hl, hc, hdb, listedUsers, userListCalls]
    · by_cases hc : ∃ a ∈ w.server.usersOf (db.getD ""), a.name = name <;>
        simp [user_create_eq, hl, hc, hdb, listedUsers, userListCalls,
          Server.usersOf_cons]

/-- C1 witness: in the concrete healthy world, creating the existing
database `metrics` is a logged no-op with no mutating call, and
creating the fresh database `carol` twice makes the second call return
false. -/
theorem claim_C1_witness :
    worldW.listingOk = true
    ∧ (db_exists cfgW "metrics" none none none none worldW).1 = true
    ∧ ((db_create cfgW "metrics" (some "eu") none none none worldW).1 = false
      ∧ (db_create cfgW "metrics" (some "eu") none none none worldW).2.infoLogs =
          worldW.infoLogs + 1
      ∧ (newCalls worldW
          (db_create cfgW "metrics" (some "eu") none none none worldW).2).filter
          Call.isMutating = [])
    ∧ (db_create cfgW "carol" none none none none
        (db_create cfgW "carol" none none none none worldW).2).1 = false :=
  ⟨rfl, by decide,
   (fun t => ⟨t.1, t.2.2.1, t.2.2.2⟩)
     ((claim_C1 cfgW "metrics" "pw" none (some "eu") none none none worldW rfl).1
       (by decide)),
   (claim_C1 cfgW "carol" "pw" none none none none none worldW rfl).2.2.1.1⟩

/-- Fixture: a world holding exactly the cluster admin `alice`, for
exercising the `user_remove` target. -/
def worldC6 : World :=
  ⟨⟨[], [Record.mk "alice"], [], fun _ _ _ _ => 0⟩, true, [], 0⟩

/-- C6: evaluation of `user_remove` at a concrete input on which the
claim fails — the target `alice` exists, the guard passes, but the
issued delete call carries the connection user `bob` (the source
passes the `user` parameter, not `name`, to `delete_cluster_admin`),
so `alice` survives while the call still reports success. -/
theorem claim_C6 :
    (user_remove ⟨none, none, none, none⟩ "alice" none (some "bob") none none none
        worldC6).2.calls =
      [Call.getListClusterAdmins ⟨"root", "root", "localhost", 8086⟩,
       Call.deleteClusterAdmin ⟨"bob", "root", "localhost", 8086⟩ (some "bob")]
    ∧ (user_remove ⟨none, none, none, none⟩ "alice" none (some "bob") none none none
        worldC6).2.server.clusterAdmins = [Record.mk "alice"]
    ∧ (user_remove ⟨none, none, none, none⟩ "alice" none (some "bob") none none none
        worldC6).1 = true := by
  refine ⟨by decide, by decide, by decide⟩
